import Mathlib

/-!
Shallow embedding of the credential-resolution and call-boundary logic of
`src/example-app/src/utils.py` (Databricks example app).

Environment variables are modelled as a record of `Option String` fields
(absent = `none`).  Python truthiness of a string value ("" and `None` are
falsy) is modelled by `truthy`.  A `WorkspaceClient` is modelled by the
`Client` inductive: `userClient host token` stands for
`WorkspaceClient(host=host, token=token)`, and `defaultClient e` stands for a
`WorkspaceClient()` resolved from the ambient environment `e`.  Whether a
no-argument construction succeeds (e.g. a CLI session exists) is external to
the program and is passed in as an oracle `cliOk : Env → Bool`.  Exceptions
are modelled by `Except String`; the outer `try/except` boundaries of the
operation functions are the `match` at the end of each `*_query`/`*_job`/
`*_endpoint` definition.
-/

namespace AppsTemplates

/-- The process environment restricted to the keys the code reads or writes:
`DATABRICKS_APP_NAME`, `DATABRICKS_HOST`, `DATABRICKS_CLIENT_ID`,
`DATABRICKS_CLIENT_SECRET`, `SQL_WAREHOUSE_ID`. -/
structure Env where
  appName : Option String
  host : Option String
  clientId : Option String
  clientSecret : Option String
  warehouseId : Option String
  deriving Repr, DecidableEq

/-- Python truthiness of an optional string: `None` and `""` are falsy. -/
def truthy : Option String → Bool
  | none => false
  | some s => !(s == "")

/-- A Databricks `WorkspaceClient`.  `userClient host token` is
`WorkspaceClient(host=host, token=token)`; `defaultClient e` is a
`WorkspaceClient()` whose credentials were resolved from the ambient
environment `e` at construction time. -/
inductive Client where
  | userClient (host : String) (token : String)
  | defaultClient (env : Env)
  deriving Repr, DecidableEq

/-- Construction of `WorkspaceClient()` from the ambient environment: succeeds
iff the external oracle `cliOk` says credentials can be resolved from `e`
(CLI session, service-principal variables, ...); raises otherwise. -/
def mkWorkspaceClient (cliOk : Env → Bool) (e : Env) : Option Client :=
  if cliOk e then some (Client.defaultClient e) else none

/-- Model of `get_user_access_token` (utils.py lines 213-239): reads the
`x-forwarded-access-token` header; returns `None` when the header is absent
or empty. -/
def get_user_access_token (header : Option String) : Option String :=
  match header with
  | none => none
  | some s => if s == "" then none else some s

/-- The restore step of the `finally:` blocks:
`if original: os.environ[KEY] = original` executed when the current value of
the key is `cur`.  A falsy original (absent or `""`) is not written back. -/
def restoreVar (orig : Option String) (cur : Option String) : Option String :=
  if truthy orig then orig else cur

/-- Model of `get_user_authorized_client` (utils.py lines 242-326).  Input: the
forwarded-token header of the current request and the current environment;
output: the optional client (`None` on every failure path, the outer
`except` included) together with the environment after the call. -/
def get_user_authorized_client (cliOk : Env → Bool) (header : Option String)
    (env : Env) : Option Client × Env :=
  let user_token := get_user_access_token header
  let is_databricks_app := env.appName.isSome
  if truthy user_token && is_databricks_app then
    -- hosted app with a forwarded user token
    if truthy env.host then
      let origId := env.clientId
      let origSecret := env.clientSecret
      -- try: remove service-principal credentials, build the user client
      let env1 : Env := { env with clientId := none, clientSecret := none }
      let client := Client.userClient (env.host.getD "") (user_token.getD "")
      -- finally: restore original values (truthiness-guarded)
      let env2 : Env := { env1 with
        clientId := restoreVar origId env1.clientId,
        clientSecret := restoreVar origSecret env1.clientSecret }
      (some client, env2)
    else
      -- DATABRICKS_HOST missing: log and return None
      (none, env)
  else if !is_databricks_app then
    -- local development: CLI authentication
    let origHost := env.host
    let origId := env.clientId
    let origSecret := env.clientSecret
    -- try: remove host and service-principal credentials, WorkspaceClient()
    let env1 : Env := { env with host := none, clientId := none,
                                 clientSecret := none }
    let r := mkWorkspaceClient cliOk env1
    -- finally: restore original values (truthiness-guarded); a construction
    -- failure propagates through the restore into the outer except -> None
    let env2 : Env := { env1 with
      host := restoreVar origHost env1.host,
      clientId := restoreVar origId env1.clientId,
      clientSecret := restoreVar origSecret env1.clientSecret }
    (r, env2)
  else
    -- hosted app but no user token: configuration error, return None
    (none, env)

/-- Model of `get_databricks_client` (utils.py lines 208-210): returns the global
service-principal client initialized by `setup_databricks_client` (possibly
`None`), here passed explicitly. -/
def get_databricks_client (sp : Option Client) : Option Client := sp

/-- The client-selection part of `submit_databricks_job` (utils.py lines
441-452): prefer the pre-initialized service-principal client; otherwise,
when `DATABRICKS_APP_NAME` is falsy, fall back to `WorkspaceClient()` on the
current environment; otherwise raise. -/
def resolve_job_client (sp : Option Client) (cliOk : Env → Bool) (env : Env) :
    Except String Client :=
  match get_databricks_client sp with
  | some client => Except.ok client
  | none =>
    if !(truthy env.appName) then
      match mkWorkspaceClient cliOk env with
      | some client => Except.ok client
      | none => Except.error
          "Unable to authenticate with Databricks. Please run \x27databricks auth login\x27 for local development."
    else
      Except.error
        "App service principal not available for job submission. Check app configuration."

/-- Model of `handle_error` (utils.py lines 147-165): formats the caught exception as
`"Error ({error_id}): {str(error)}"`; the error id is a timestamp, passed in
explicitly. -/
def handle_error (error_id : String) (msg : String) : String :=
  "Error (" ++ error_id ++ "): " ++ msg

/-- Parameter dictionary parsed from a JSON string: key/value pairs (values
already stringified, as the code later applies `str(value)`). -/
abbrev Params : Type := List (String × String)

/-- Model of `json.loads(parameters_json) if parameters_json else` the empty dict: the empty
string skips parsing; otherwise the outcome of `json.loads` plus the
pydantic dict-type validation is given by the external `parse` oracle. -/
def parseParams (parse : String → Except String Params) (s : String) :
    Except String Params :=
  if s == "" then Except.ok [] else parse s

/-- Leading- and trailing-whitespace removal on a character list. -/
def stripChars (l : List Char) : List Char :=
  ((l.dropWhile Char.isWhitespace).reverse.dropWhile Char.isWhitespace).reverse

/-- Model of Python `str.strip()`. -/
def pyStrip (s : String) : String :=
  String.mk (stripChars s.data)

/-- Model of `SQLQueryRequest.validate_query_template` (utils.py lines 57-65): rejects
a template that is empty or whitespace-only (`not v or not v.strip()`),
returns the stripped template. -/
def validate_query_template (v : String) : Except String String :=
  if pyStrip v == "" then Except.error "Query template cannot be empty"
  else Except.ok (pyStrip v)

/-- Model of `JobSubmissionRequest.validate_job_id` (utils.py lines 73-78). -/
def validate_job_id (v : Int) : Except String Int :=
  if v ≤ 0 then Except.error "Job ID must be positive" else Except.ok v

/-- Model of `warehouse_id if warehouse_id else None` (utils.py line 358). -/
def normWarehouse (w : Option String) : Option String :=
  if truthy w then w else none

/-- Python `a or b` on optional strings (utils.py line 362). -/
def orTruthy (a b : Option String) : Option String :=
  if truthy a then a else b

/-- Error message raised when the user-authorized client is unavailable in a
(truthy) hosted-app environment (utils.py lines 369-370, 500-501). -/
def consentMsg : String :=
  "Unable to authenticate with Databricks. Ensure user authorization is enabled for this app and the user has granted consent."

/-- Error message raised when the user-authorized client is unavailable in
local development (utils.py lines 371-372, 502-503). -/
def cliLoginMsg : String :=
  "Unable to authenticate with Databricks. Please run \x27databricks auth login\x27 for local development."

/-- The authentication-failure message chosen by the callers of
`get_user_authorized_client`: `os.getenv` on the app name being a
truthiness test. -/
def authFailMsg (env : Env) : String :=
  if truthy env.appName then consentMsg else cliLoginMsg

/-- The `result.result.data_array` projection of an executed statement:
`none` when `result.result` or `data_array` is `None`. -/
structure StmtResult where
  statement_id : String
  data_array : Option (List (List String))
  deriving Repr, DecidableEq

/-- Number of columns `pd.DataFrame` assigns to a list of rows: the longest
row length. -/
def maxRowLen (rows : List (List String)) : Nat :=
  rows.foldr (fun r m => max r.length m) 0

/-- Records conversion of a DataFrame built from a list of rows:
one record per row, keyed by column index, missing cells `none` (NaN). -/
def dfRecords (rows : List (List String)) :
    List (List (Nat × Option String)) :=
  rows.map (fun r => (List.range (maxRowLen rows)).map (fun j => (j, r.get? j)))

/-- Columns list of the DataFrame: name/id pairs of stringified column
indices (utils.py line 408). -/
def dfColumns (rows : List (List String)) : List (String × String) :=
  (List.range (maxRowLen rows)).map (fun i => (toString i, toString i))

/-- Payload of a successful `execute_sql_query` result dict. -/
structure SqlPayload where
  statement_id : String
  data : List (List (Nat × Option String))
  columns : List (String × String)
  row_count : Nat
  deriving Repr, DecidableEq

/-- The empty-result payload (utils.py lines 411-418). -/
def emptySqlPayload (sid : String) : SqlPayload :=
  { statement_id := sid, data := [], columns := [], row_count := 0 }

/-- The dict returned by `execute_sql_query`: `success` plus optional payload
keys and an optional `error` key. -/
structure SqlResult where
  success : Bool
  statement_id : Option String := none
  data : Option (List (List (Nat × Option String))) := none
  columns : Option (List (String × String)) := none
  row_count : Option Nat := none
  error : Option String := none
  deriving Repr, DecidableEq

/-- The body of the `try:` block of `execute_sql_query` (utils.py lines
348-418): parse, validate, pick the warehouse, resolve the user client,
execute, format.  `execStmt client warehouse statement params` is the
external `statement_execution.execute_statement` call. -/
def execute_sql_core (parse : String → Except String Params)
    (cliOk : Env → Bool)
    (execStmt : Client → String → String → Params → Except String StmtResult)
    (header : Option String) (env : Env)
    (query_template parameters_json : String) (warehouse_id : Option String) :
    Except String SqlPayload :=
  match parseParams parse parameters_json with
  | Except.error e => Except.error e
  | Except.ok parameters =>
    match validate_query_template query_template with
    | Except.error e => Except.error e
    | Except.ok qt =>
      let wid := orTruthy (normWarehouse warehouse_id) env.warehouseId
      if truthy wid then
        match (get_user_authorized_client cliOk header env).fst with
        | none => Except.error (authFailMsg env)
        | some user_client =>
          match execStmt user_client (wid.getD "") qt parameters with
          | Except.error e => Except.error e
          | Except.ok result =>
            match result.data_array with
            | some rows =>
              if rows.isEmpty then Except.ok (emptySqlPayload result.statement_id)
              else Except.ok
                { statement_id := result.statement_id,
                  data := dfRecords rows,
                  columns := dfColumns rows,
                  row_count := rows.length }
            | none => Except.ok (emptySqlPayload result.statement_id)
      else Except.error "SQL warehouse ID is required"

/-- Model of `execute_sql_query` (utils.py lines 348-425): the `try/except` boundary
around `execute_sql_core`, converting any raised exception into
`{success: False, error: ...}`. -/
def execute_sql_query (now : String) (parse : String → Except String Params)
    (cliOk : Env → Bool)
    (execStmt : Client → String → String → Params → Except String StmtResult)
    (header : Option String) (env : Env)
    (query_template parameters_json : String) (warehouse_id : Option String) :
    SqlResult :=
  match execute_sql_core parse cliOk execStmt header env
      query_template parameters_json warehouse_id with
  | Except.ok p =>
    { success := true, statement_id := some p.statement_id,
      data := some p.data, columns := some p.columns,
      row_count := some p.row_count, error := none }
  | Except.error e =>
    { success := false, error := some (handle_error now e) }

/-- The dict returned by `submit_databricks_job`. -/
structure JobResult where
  success : Bool
  job_id : Option Int := none
  run_id : Option Nat := none
  parameters : Option Params := none
  timestamp : Option String := none
  auth_method : Option String := none
  error : Option String := none
  deriving Repr, DecidableEq

/-- Payload of a successful `submit_databricks_job` result dict. -/
structure JobPayload where
  job_id : Int
  run_id : Nat
  parameters : Params
  auth_method : String
  deriving Repr, DecidableEq

/-- The body of the `try:` block of `submit_databricks_job` (utils.py lines
429-480): parse, validate, resolve the privileged client, run the job.
`runNow client job_id params` is the external `jobs.run_now` call. -/
def submit_core (parse : String → Except String Params) (sp : Option Client)
    (cliOk : Env → Bool)
    (runNow : Client → Int → Params → Except String Nat)
    (env : Env) (job_id : Int) (parameters_json : String) :
    Except String JobPayload :=
  match parseParams parse parameters_json with
  | Except.error e => Except.error e
  | Except.ok parameters =>
    match validate_job_id job_id with
    | Except.error e => Except.error e
    | Except.ok jid =>
      match resolve_job_client sp cliOk env with
      | Except.error e => Except.error e
      | Except.ok client =>
        let auth_method :=
          if truthy env.appName then "app_service_principal"
          else "cli_authentication"
        match runNow client jid parameters with
        | Except.error e => Except.error e
        | Except.ok run_id =>
          Except.ok { job_id := jid, run_id := run_id,
                      parameters := parameters, auth_method := auth_method }

/-- Model of `submit_databricks_job` (utils.py lines 429-487): the `try/except`
boundary around `submit_core`. -/
def submit_databricks_job (now : String)
    (parse : String → Except String Params) (sp : Option Client)
    (cliOk : Env → Bool)
    (runNow : Client → Int → Params → Except String Nat)
    (env : Env) (job_id : Int) (parameters_json : String) : JobResult :=
  match submit_core parse sp cliOk runNow env job_id parameters_json with
  | Except.ok p =>
    { success := true, job_id := some p.job_id, run_id := some p.run_id,
      parameters := some p.parameters, timestamp := some now,
      auth_method := some p.auth_method, error := none }
  | Except.error e =>
    { success := false, error := some (handle_error now e) }

/-- One entry of the `messages` list of the parsed serving inputs: a dict
with optional `role` and `content` keys. -/
structure ServeMsg where
  role : Option String
  content : Option String
  deriving Repr, DecidableEq

/-- The parsed `inputs` dict of `call_model_serving_endpoint`, restricted to
the keys the code reads. -/
structure ServeInputs where
  messages : Option (List ServeMsg) := none
  prompt : Option String := none
  content : Option String := none
  deriving Repr, DecidableEq

/-- Role values of `ChatMessageRole` used by the code. -/
inductive Role where
  | user
  | system
  deriving Repr, DecidableEq

/-- A `ChatMessage` sent to the serving endpoint. -/
structure ChatMsg where
  role : Role
  content : String
  deriving Repr, DecidableEq

/-- The default message (utils.py lines 526-533). -/
def defaultMessages : List ChatMsg :=
  [{ role := Role.user, content := "Hello, can you help me?" }]

/-- Message construction of `call_model_serving_endpoint` (utils.py lines
507-533), with Python truthiness on `inputs.get(...)`. -/
def buildMessages (inputs : ServeInputs) : List ChatMsg :=
  match inputs.messages with
  | some msgs =>
    if msgs.isEmpty then
      if truthy inputs.prompt || truthy inputs.content then
        [{ role := Role.user,
           content := if truthy inputs.prompt then inputs.prompt.getD ""
                      else inputs.content.getD "" }]
      else defaultMessages
    else
      msgs.map (fun m =>
        { role := if (m.role.getD "user") == "user" then Role.user
                  else Role.system,
          content := m.content.getD "" })
  | none =>
    if truthy inputs.prompt || truthy inputs.content then
      [{ role := Role.user,
         content := if truthy inputs.prompt then inputs.prompt.getD ""
                    else inputs.content.getD "" }]
    else defaultMessages

/-- Model of `json.loads(inputs_json)` for the serving inputs (empty string skips parsing);
parsing and shape errors come from the external `parse` oracle. -/
def parseServeInputs (parse : String → Except String ServeInputs)
    (s : String) : Except String ServeInputs :=
  if s == "" then Except.ok {} else parse s

/-- The dict returned by `call_model_serving_endpoint`; `result` is the
serialized `response.as_dict()`. -/
structure ServeResult where
  success : Bool
  endpoint_name : Option String := none
  timestamp : Option String := none
  result : Option String := none
  error : Option String := none
  deriving Repr, DecidableEq

/-- The body of the `try:` block of `call_model_serving_endpoint` (utils.py
lines 491-558): parse inputs, resolve the user client, build messages,
query.  `query client name messages` is the external
`serving_endpoints.query` call; its `ok` value is the serialized
`response.as_dict()`. -/
def call_model_serving_core (parse : String → Except String ServeInputs)
    (cliOk : Env → Bool)
    (query : Client → String → List ChatMsg → Except String String)
    (header : Option String) (env : Env)
    (endpoint_name inputs_json : String) : Except String (String × String) :=
  match parseServeInputs parse inputs_json with
  | Except.error e => Except.error e
  | Except.ok inputs =>
    match (get_user_authorized_client cliOk header env).fst with
    | none => Except.error (authFailMsg env)
    | some user_client =>
      let messages := buildMessages inputs
      match query user_client endpoint_name messages with
      | Except.error e => Except.error e
      | Except.ok result => Except.ok (endpoint_name, result)

/-- Model of `call_model_serving_endpoint` (utils.py lines 491-565): the `try/except`
boundary around `call_model_serving_core`. -/
def call_model_serving_endpoint (now : String)
    (parse : String → Except String ServeInputs) (cliOk : Env → Bool)
    (query : Client → String → List ChatMsg → Except String String)
    (header : Option String) (env : Env)
    (endpoint_name inputs_json : String) : ServeResult :=
  match call_model_serving_core parse cliOk query header env
      endpoint_name inputs_json with
  | Except.ok p =>
    { success := true, endpoint_name := some p.fst, timestamp := some now,
      result := some p.snd, error := none }
  | Except.error e =>
    { success := false, error := some (handle_error now e) }

/-- A concrete hosted-app environment used to instantiate theorems. -/
def envHosted0 : Env :=
  { appName := some "my-app", host := some "https://dbc",
    clientId := some "cid", clientSecret := some "cs",
    warehouseId := some "wh-1" }

/-- A concrete local-development environment (no app-name marker). -/
def envLocal0 : Env := { envHosted0 with appName := none }

/-- A hosted-app environment whose host configuration is absent. -/
def envHostMissing : Env := { envHosted0 with host := none }

/-- A hosted-app environment whose app-name marker is the empty string. -/
def envEmptyMarker : Env := { envHosted0 with appName := some "" }

/-- A local environment whose client-id value is the empty string. -/
def envEmptyClientId : Env :=
  { envHosted0 with appName := none, clientId := some "" }

/-- Concrete ambient-construction oracle: construction always succeeds. -/
def cliYes : Env → Bool := fun _ => true

/-- Concrete JSON-parameter oracle: parsing always fails (malformed JSON). -/
def parseNone : String → Except String Params :=
  fun _ => Except.error "Expecting value: line 1 column 1 (char 0)"

/-- Concrete statement-execution oracle returning an empty result set. -/
def execStmtEmpty : Client → String → String → Params → Except String StmtResult :=
  fun _ _ _ _ => Except.ok { statement_id := "stmt-1", data_array := some [] }

/-- Concrete job-run oracle returning run id 7. -/
def runNowOk : Client → Int → Params → Except String Nat :=
  fun _ _ _ => Except.ok 7

/-- Concrete serving-query oracle. -/
def queryOk : Client → String → List ChatMsg → Except String String :=
  fun _ _ _ => Except.ok "resp"

/-- Truthiness unfolds to existence of a non-empty value. -/
theorem truthy_iff (o : Option String) :
    truthy o = true ↔ ∃ s, o = some s ∧ s ≠ "" := by
  cases o with
  | none => simp [truthy]
  | some s => simp [truthy]

/-- Truthiness of a non-empty value. -/
theorem truthy_some (s : String) (hs : s ≠ "") : truthy (some s) = true := by
  simp [truthy, hs]

/-- Restoring over a deleted key gives back the original unless the original
was the empty string, which is dropped. -/
theorem restoreVar_none_cases (o : Option String) :
    restoreVar o none = o ∨ (o = some "" ∧ restoreVar o none = none) := by
  cases o with
  | none => exact Or.inl (by simp [restoreVar, truthy])
  | some s =>
    by_cases hs : s = ""
    · subst hs
      exact Or.inr ⟨rfl, by simp [restoreVar, truthy]⟩
    · exact Or.inl (by simp [restoreVar, truthy, hs])

/-- C1: in a hosted-app environment (`DATABRICKS_APP_NAME` present) with a
non-empty forwarded user token, `get_user_authorized_client` returns the
client built from exactly the configured workspace host and that token, and
returns no client when the host configuration is absent (falsy). -/
theorem C1_hosted_user_token (cliOk : Env → Bool) (t : String) (ht : t ≠ "")
    (env : Env) (a : String) (ha : env.appName = some a) :
    (∀ h, env.host = some h → h ≠ "" →
      (get_user_authorized_client cliOk (some t) env).fst =
        some (Client.userClient h t)) ∧
    (truthy env.host = false →
      (get_user_authorized_client cliOk (some t) env).fst = none) := by
  have htok : get_user_access_token (some t) = some t := by
    simp [get_user_access_token, ht]
  constructor
  · intro h hh hhe
    simp [get_user_authorized_client, htok, truthy_some t ht, ha, hh,
      truthy_some h hhe]
  · intro hf
    simp [get_user_authorized_client, htok, truthy_some t ht, ha, hf]

/-- Witness for C1 at a concrete hosted environment. -/
theorem C1_hosted_user_token_witness :
    (get_user_authorized_client cliYes (some "tok") envHosted0).fst =
      some (Client.userClient "https://dbc" "tok") :=
  (C1_hosted_user_token cliYes "tok" (by decide) envHosted0 "my-app"
      rfl).1 "https://dbc" rfl (by decide)

/-- C2: in a hosted-app environment with no forwarded token,
`get_user_authorized_client` returns no client — for every environment and
every ambient-construction oracle, so no other identity (service principal
or CLI) is silently substituted. -/
theorem C2_hosted_no_token (cliOk : Env → Bool) (env : Env) (a : String)
    (ha : env.appName = some a) :
    (get_user_authorized_client cliOk none env).fst = none := by
  simp [get_user_authorized_client, get_user_access_token, truthy, ha]

/-- Witness for C2 at a concrete hosted environment. -/
theorem C2_hosted_no_token_witness :
    (get_user_authorized_client cliYes none envHosted0).fst = none :=
  C2_hosted_no_token cliYes envHosted0 "my-app" rfl

/-- C3: with `DATABRICKS_APP_NAME` unset, `get_user_authorized_client` takes
the CLI path for every forwarded-token header, and the client is constructed
on an environment from which the host and the service-principal credentials
have been removed. -/
theorem C3_local_cli (cliOk : Env → Bool) (header : Option String) (env : Env)
    (ha : env.appName = none) :
    (get_user_authorized_client cliOk header env).fst =
      mkWorkspaceClient cliOk
        { env with host := none, clientId := none, clientSecret := none } := by
  simp [get_user_authorized_client, ha]

/-- Witness for C3 at a concrete local environment with a token present. -/
theorem C3_local_cli_witness :
    (get_user_authorized_client cliYes (some "tok") envLocal0).fst =
      some (Client.defaultClient
        { envLocal0 with host := none, clientId := none,
                         clientSecret := none }) := by
  have h := C3_local_cli cliYes (some "tok") envLocal0 rfl
  simpa [mkWorkspaceClient, cliYes] using h

/-- C4 counterexample: with `DATABRICKS_CLIENT_ID` originally set to the
empty string, the CLI-auth path of `get_user_authorized_client` deletes the
key and the truthiness-guarded restore never writes it back, so the value
after the call differs from the value before the call. -/
theorem C4_counterexample :
    ((get_user_authorized_client cliYes none envEmptyClientId).snd).clientId ≠
      envEmptyClientId.clientId := by decide

/-- C4 (amended): after `get_user_authorized_client` returns or fails, every
environment key either has exactly its original presence and value, or —
only when its original value was the empty string — is left removed; in
particular every absent or non-empty original value is exactly restored, and
the app-name and warehouse keys are never mutated. -/
theorem C4_env_restoration (cliOk : Env → Bool) (header : Option String)
    (env : Env) :
    ((get_user_authorized_client cliOk header env).snd).appName = env.appName ∧
    ((get_user_authorized_client cliOk header env).snd).warehouseId =
      env.warehouseId ∧
    (((get_user_authorized_client cliOk header env).snd).host = env.host ∨
      (env.host = some "" ∧
        ((get_user_authorized_client cliOk header env).snd).host = none)) ∧
    (((get_user_authorized_client cliOk header env).snd).clientId =
        env.clientId ∨
      (env.clientId = some "" ∧
        ((get_user_authorized_client cliOk header env).snd).clientId = none)) ∧
    (((get_user_authorized_client cliOk header env).snd).clientSecret =
        env.clientSecret ∨
      (env.clientSecret = some "" ∧
        ((get_user_authorized_client cliOk header env).snd).clientSecret =
          none)) := by
  unfold get_user_authorized_client
  dsimp only
  split
  · -- hosted app with forwarded token
    split
    · -- host configured: only the service-principal keys are touched
      refine ⟨rfl, rfl, Or.inl rfl, ?_, ?_⟩
      · simpa using restoreVar_none_cases env.clientId
      · simpa using restoreVar_none_cases env.clientSecret
    · exact ⟨rfl, rfl, Or.inl rfl, Or.inl rfl, Or.inl rfl⟩
  · split
    · -- CLI path: host and service-principal keys are touched
      refine ⟨rfl, rfl, ?_, ?_, ?_⟩
      · simpa using restoreVar_none_cases env.host
      · simpa using restoreVar_none_cases env.clientId
      · simpa using restoreVar_none_cases env.clientSecret
    · exact ⟨rfl, rfl, Or.inl rfl, Or.inl rfl, Or.inl rfl⟩

/-- C5 counterexample: with the app-name marker present but equal to the
empty string and no service-principal session, the privileged resolver falls
back to CLI authentication instead of failing — the marker test at this site
is a truthiness test, unlike the `is not None` test of the user-client
resolver. -/
theorem C5_counterexample :
    envEmptyMarker.appName.isSome = true ∧
    resolve_job_client none cliYes envEmptyMarker =
      Except.ok (Client.defaultClient envEmptyMarker) :=
  ⟨rfl, rfl⟩

/-- C5 (amended): the privileged resolver used by job submission returns the
pre-initialized service-principal client whenever it exists, regardless of
anything else (it consults no forwarded token); when it does not exist and
the app-name marker is unset or empty, it falls back to a `WorkspaceClient()`
on the current (uncleared) environment; when it does not exist and the
marker is non-empty, it fails. -/
theorem C5_privileged_resolution (sp : Option Client) (cliOk : Env → Bool)
    (env : Env) :
    (∀ c, sp = some c → resolve_job_client sp cliOk env = Except.ok c) ∧
    (sp = none → truthy env.appName = false →
      resolve_job_client sp cliOk env =
        match mkWorkspaceClient cliOk env with
        | some c => Except.ok c
        | none => Except.error cliLoginMsg) ∧
    (sp = none → truthy env.appName = true →
      ∃ e, resolve_job_client sp cliOk env = Except.error e) := by
  refine ⟨?_, ?_, ?_⟩
  · intro c hc
    subst hc
    rfl
  · intro hsp hmark
    subst hsp
    simp only [resolve_job_client, get_databricks_client, hmark,
      Bool.not_false, if_true]
    rfl
  · intro hsp hmark
    subst hsp
    refine ⟨"App service principal not available for job submission. Check app configuration.", ?_⟩
    simp [resolve_job_client, get_databricks_client, hmark]

/-- Witness for C5 (amended): all three branches at concrete inputs. -/
theorem C5_privileged_resolution_witness :
    resolve_job_client (some (Client.userClient "https://dbc" "tok")) cliYes
        envHosted0 =
      Except.ok (Client.userClient "https://dbc" "tok") ∧
    resolve_job_client none cliYes envLocal0 =
      Except.ok (Client.defaultClient envLocal0) ∧
    resolve_job_client none cliYes envHosted0 =
      Except.error
        "App service principal not available for job submission. Check app configuration." := by
  refine ⟨(C5_privileged_resolution _ cliYes envHosted0).1 _ rfl, ?_, ?_⟩
  · have h := (C5_privileged_resolution none cliYes envLocal0).2.1 rfl rfl
    rw [h]
    rfl
  · obtain ⟨e, he⟩ :=
      (C5_privileged_resolution none cliYes envHosted0).2.2 rfl rfl
    rw [he]
    have : e = "App service principal not available for job submission. Check app configuration." := by
      have h2 := he
      simp [resolve_job_client, get_databricks_client, envHosted0,
        truthy] at h2
      exact h2.symm
    rw [this]

/-- C6: each boundary operation — `execute_sql_query`,
`submit_databricks_job`, `call_model_serving_endpoint` — is a total function
returning a result with a boolean `success` key such that `error` is a
string exactly when `success` is false; every raised exception of the body,
for every input and every external-call outcome, is converted at the
boundary instead of propagating. -/
theorem C6_boundary_shape :
    (∀ now parse cliOk execStmt header env qt pj wid,
      let r := execute_sql_query now parse cliOk execStmt header env qt pj wid
      (r.success = true ∧ r.error = none) ∨
        (r.success = false ∧ ∃ s, r.error = some s)) ∧
    (∀ now parse sp cliOk runNow env jid pj,
      let r := submit_databricks_job now parse sp cliOk runNow env jid pj
      (r.success = true ∧ r.error = none) ∨
        (r.success = false ∧ ∃ s, r.error = some s)) ∧
    (∀ now parse cliOk query header env en ij,
      let r := call_model_serving_endpoint now parse cliOk query header env
        en ij
      (r.success = true ∧ r.error = none) ∨
        (r.success = false ∧ ∃ s, r.error = some s)) := by
  refine ⟨?_, ?_, ?_⟩
  · intro now parse cliOk execStmt header env qt pj wid
    dsimp only
    cases h : execute_sql_core parse cliOk execStmt header env qt pj wid with
    | ok p => exact Or.inl (by simp [execute_sql_query, h])
    | error e => exact Or.inr (by simp [execute_sql_query, h])
  · intro now parse sp cliOk runNow env jid pj
    dsimp only
    cases h : submit_core parse sp cliOk runNow env jid pj with
    | ok p => exact Or.inl (by simp [submit_databricks_job, h])
    | error e => exact Or.inr (by simp [submit_databricks_job, h])
  · intro now parse cliOk query header env en ij
    dsimp only
    cases h : call_model_serving_core parse cliOk query header env en ij with
    | ok p => exact Or.inl (by simp [call_model_serving_endpoint, h])
    | error e => exact Or.inr (by simp [call_model_serving_endpoint, h])

/-- C9: for every non-positive job id and every parameters string — and
every parse outcome, privileged client, and job-run outcome — the submission
result has `success = false`: the pydantic validator rejects the id before
any job is run. -/
theorem C9_nonpositive_job_rejected (now : String)
    (parse : String → Except String Params) (sp : Option Client)
    (cliOk : Env → Bool) (runNow : Client → Int → Params → Except String Nat)
    (env : Env) (job_id : Int) (hj : job_id ≤ 0) (pj : String) :
    (submit_databricks_job now parse sp cliOk runNow env job_id pj).success =
      false := by
  unfold submit_databricks_job submit_core
  cases h : parseParams parse pj with
  | error e => simp [h]
  | ok ps => simp [h, validate_job_id, hj]

/-- Witness for C9 at job id 0 with a succeeding run oracle. -/
theorem C9_nonpositive_job_rejected_witness :
    (submit_databricks_job "T" parseNone (some (Client.defaultClient envHosted0))
        cliYes runNowOk envHosted0 0 "").success = false :=
  C9_nonpositive_job_rejected "T" parseNone
    (some (Client.defaultClient envHosted0)) cliYes runNowOk envHosted0 0
    (by decide) ""

/-- C7 counterexample: two distinct failure kinds — missing host
configuration (hosted app, token present, `DATABRICKS_HOST` absent) and
missing consent (hosted app, no forwarded token) — surface the identical
error message to the caller, so the surfaced cause does not distinguish the
failure kind. -/
theorem C7_counterexample :
    envHostMissing.host = none ∧
    (get_user_authorized_client cliYes (some "tok") envHostMissing).fst =
      none ∧
    (get_user_authorized_client cliYes none envHosted0).fst = none ∧
    (execute_sql_query "T" parseNone cliYes execStmtEmpty (some "tok")
        envHostMissing "SELECT 1" "" (some "wh-1")).success = false ∧
    (execute_sql_query "T" parseNone cliYes execStmtEmpty none envHosted0
        "SELECT 1" "" (some "wh-1")).success = false ∧
    (execute_sql_query "T" parseNone cliYes execStmtEmpty (some "tok")
        envHostMissing "SELECT 1" "" (some "wh-1")).error =
      (execute_sql_query "T" parseNone cliYes execStmtEmpty none envHosted0
        "SELECT 1" "" (some "wh-1")).error :=
  ⟨rfl, rfl, rfl, rfl, rfl, rfl⟩

/-- C7 (amended): when credential resolution fails at the SQL boundary, the
caller-surfaced message distinguishes only the deployment context — the
missing-consent message when the app marker is truthy, the no-CLI-session
message otherwise — wrapped verbatim by `handle_error`; a missing host
configuration is not separately distinguished. -/
theorem C7_failure_messages (now : String)
    (parse : String → Except String Params) (cliOk : Env → Bool)
    (execStmt : Client → String → String → Params → Except String StmtResult)
    (header : Option String) (env : Env) (qt pj : String)
    (wid : Option String) (ps : Params) (q : String)
    (h1 : parseParams parse pj = Except.ok ps)
    (h2 : validate_query_template qt = Except.ok q)
    (h3 : truthy (orTruthy (normWarehouse wid) env.warehouseId) = true)
    (h4 : (get_user_authorized_client cliOk header env).fst = none) :
    execute_sql_query now parse cliOk execStmt header env qt pj wid =
      { success := false,
        error := some (handle_error now
          (if truthy env.appName then consentMsg else cliLoginMsg)) } := by
  unfold execute_sql_query execute_sql_core
  rw [h1, h2]
  simp only [h3, if_true, h4, authFailMsg]

/-- Witness for C7 (amended) in a hosted environment with no token: the
surfaced error is the consent message. -/
theorem C7_failure_messages_witness :
    execute_sql_query "T" parseNone cliYes execStmtEmpty none envHosted0
        "SELECT 1" "" (some "wh-1") =
      { success := false, error := some (handle_error "T" consentMsg) } :=
  C7_failure_messages "T" parseNone cliYes execStmtEmpty none envHosted0
    "SELECT 1" "" (some "wh-1") [] "SELECT 1" rfl rfl rfl rfl

/-- Every successful payload of the SQL core has `row_count` equal to the
length of its records list. -/
theorem sql_core_row_count (parse : String → Except String Params)
    (cliOk : Env → Bool)
    (execStmt : Client → String → String → Params → Except String StmtResult)
    (header : Option String) (env : Env) (qt pj : String)
    (wid : Option String) (p : SqlPayload)
    (hp : execute_sql_core parse cliOk execStmt header env qt pj wid =
      Except.ok p) :
    p.row_count = p.data.length := by
  unfold execute_sql_core at hp
  split at hp
  · simp at hp
  · split at hp
    · simp at hp
    · dsimp only at hp
      split at hp
      · split at hp
        · simp at hp
        · split at hp
          · simp at hp
          · split at hp
            · split at hp
              · injection hp with h
                subst h
                simp [emptySqlPayload]
              · injection hp with h
                subst h
                simp [dfRecords]
            · injection hp with h
              subst h
              simp [emptySqlPayload]
      · simp at hp

/-- C10: every successful result of `execute_sql_query` has `row_count`
equal to the number of entries of `data`; in particular, when the executed
statement returns no rows (absent or empty data array) the result is the
success result with empty data, empty columns, and zero row count. -/
theorem C10_row_count (now : String) (parse : String → Except String Params)
    (cliOk : Env → Bool)
    (execStmt : Client → String → String → Params → Except String StmtResult)
    (header : Option String) (env : Env) (qt pj : String)
    (wid : Option String) :
    ((execute_sql_query now parse cliOk execStmt header env qt pj wid).success =
        true →
      ∃ d,
        (execute_sql_query now parse cliOk execStmt header env qt pj
            wid).data = some d ∧
        (execute_sql_query now parse cliOk execStmt header env qt pj
            wid).row_count = some d.length) ∧
    (∀ ps q c sid da,
      parseParams parse pj = Except.ok ps →
      validate_query_template qt = Except.ok q →
      truthy (orTruthy (normWarehouse wid) env.warehouseId) = true →
      (get_user_authorized_client cliOk header env).fst = some c →
      execStmt c ((orTruthy (normWarehouse wid) env.warehouseId).getD "") q
          ps = Except.ok { statement_id := sid, data_array := da } →
      (da = none ∨ da = some []) →
      execute_sql_query now parse cliOk execStmt header env qt pj wid =
        { success := true, statement_id := some sid, data := some [],
          columns := some [], row_count := some 0, error := none }) := by
  constructor
  · intro hs
    cases h : execute_sql_core parse cliOk execStmt header env qt pj wid with
    | ok p =>
      have hrc := sql_core_row_count parse cliOk execStmt header env qt pj
        wid p h
      exact ⟨p.data, by simp [execute_sql_query, h],
        by simp [execute_sql_query, h, hrc]⟩
    | error e => simp [execute_sql_query, h] at hs
  · intro ps q c sid da h1 h2 h3 h4 h5 h6
    unfold execute_sql_query execute_sql_core
    rw [h1, h2]
    simp only [h3, if_true, h4, h5]
    rcases h6 with h6 | h6 <;> subst h6 <;> simp [emptySqlPayload]

/-- Witness for C10 at a concrete empty result set. -/
theorem C10_row_count_witness :
    execute_sql_query "T" parseNone cliYes execStmtEmpty (some "tok")
        envHosted0 "SELECT 1" "" (some "wh-1") =
      { success := true, statement_id := some "stmt-1", data := some [],
        columns := some [], row_count := some 0, error := none } :=
  (C10_row_count "T" parseNone cliYes execStmtEmpty (some "tok") envHosted0
      "SELECT 1" "" (some "wh-1")).2 [] "SELECT 1"
    (Client.userClient "https://dbc" "tok") "stmt-1" (some []) rfl rfl rfl
    rfl rfl (Or.inr rfl)

/-- C8: every client produced by a resolution call is bound to exactly one
credential source determined by that call alone — either the user client of
exactly this request token and the configured host (hosted context), or the
ambient client of the environment with host and service-principal
credentials removed (local context) — and repeating the resolution on the
restored environment yields the same, freshly constructed client: no client
state is carried over or cached between calls. -/
theorem C8_fresh_single_source (cliOk : Env → Bool) (header : Option String)
    (env : Env) :
    (∀ c, (get_user_authorized_client cliOk header env).fst = some c →
      (∃ h t, c = Client.userClient h t ∧
        get_user_access_token header = some t ∧ env.host = some h ∧
        env.appName.isSome = true) ∨
      (env.appName = none ∧
        c = Client.defaultClient
          { env with host := none, clientId := none,
                     clientSecret := none })) ∧
    (get_user_authorized_client cliOk header
        ((get_user_authorized_client cliOk header env).snd)).fst =
      (get_user_authorized_client cliOk header env).fst := by
  constructor
  · intro c hc
    by_cases happ : env.appName.isSome = true
    · by_cases htok : truthy (get_user_access_token header) = true
      · by_cases h2 : truthy env.host = true
        · obtain ⟨t, hta, htne⟩ := (truthy_iff _).mp htok
          obtain ⟨h, hha, hhne⟩ := (truthy_iff _).mp h2
          simp [get_user_authorized_client, hta, truthy_some t htne, happ,
            hha, truthy_some h hhne] at hc
          exact Or.inl ⟨h, t, hc.symm, hta, hha, happ⟩
        · have h2f : truthy env.host = false := by simpa using h2
          simp [get_user_authorized_client, htok, happ, h2f] at hc
      · have htokf : truthy (get_user_access_token header) = false := by
          simpa using htok
        simp [get_user_authorized_client, htokf, happ] at hc
    · have happf : env.appName.isSome = false := by simpa using happ
      refine Or.inr ⟨Option.not_isSome_iff_eq_none.mp (by simp [happf]), ?_⟩
      simp only [get_user_authorized_client, happf, Bool.and_false,
        Bool.not_false, if_false, if_true, Bool.false_eq_true] at hc
      unfold mkWorkspaceClient at hc
      by_cases hcli :
          cliOk { env with host := none, clientId := none,
                           clientSecret := none } = true
      · rw [if_pos hcli] at hc
        injection hc with hcc
        exact hcc.symm
      · rw [if_neg hcli] at hc
        simp at hc
  · by_cases happ : env.appName.isSome = true
    · by_cases htok : truthy (get_user_access_token header) = true
      · by_cases h2 : truthy env.host = true
        · simp [get_user_authorized_client, happ, htok, h2]
        · have h2f : truthy env.host = false := by simpa using h2
          simp [get_user_authorized_client, happ, htok, h2f]
      · have htokf : truthy (get_user_access_token header) = false := by
          simpa using htok
        simp [get_user_authorized_client, happ, htokf]
    · have happf : env.appName.isSome = false := by simpa using happ
      simp [get_user_authorized_client, happf]

/-- Witness for C8 at a concrete hosted environment with a token. -/
theorem C8_fresh_single_source_witness :
    ((∃ h t, Client.userClient "https://dbc" "tok" = Client.userClient h t ∧
        get_user_access_token (some "tok") = some t ∧
        envHosted0.host = some h ∧ envHosted0.appName.isSome = true) ∨
      (envHosted0.appName = none ∧
        Client.userClient "https://dbc" "tok" = Client.defaultClient
          { envHosted0 with host := none, clientId := none,
                            clientSecret := none })) ∧
    (get_user_authorized_client cliYes (some "tok")
        ((get_user_authorized_client cliYes (some "tok") envHosted0).snd)).fst =
      (get_user_authorized_client cliYes (some "tok") envHosted0).fst :=
  ⟨(C8_fresh_single_source cliYes (some "tok") envHosted0).1
      (Client.userClient "https://dbc" "tok") rfl,
    (C8_fresh_single_source cliYes (some "tok") envHosted0).2⟩

end AppsTemplates
